import Mathlib

/-!
Verification of the module resolution and compilation-orchestration subsystem
of a Cython-style compiler front end (`Cython/Compiler/Main.py`).

The Python source is shallowly embedded: pure fragments become Lean
functions, filesystem access is modelled by an explicit `FS` record of
(static) query functions, and Python exceptions become `Except` results.
External collaborators (the `Utils` module, `Symtab` scopes, pipeline
stages) that are not part of the embedded file are passed in as explicit
oracle parameters, or, where a claim depends on them, modelled from the
specification and marked as such in the doc comment.
-/

set_option autoImplicit false

/-- Python exception kinds that the embedded code can raise. -/
inductive PyErr where
  | runtimeError
  | typeError
  | environmentError
  | keyError
deriving DecidableEq, Repr

/-! ## Small utilities: association lists (Python dicts), character lists -/

/-- Lookup in an association list (Python `dict.get`). -/
def alookup {κ α : Type} [DecidableEq κ] : List (κ × α) → κ → Option α
  | [], _ => none
  | (k, v) :: rest, q => if q = k then some v else alookup rest q

/-- Update / insert in an association list (Python `dict[k] = v`). -/
def alset {κ α : Type} [DecidableEq κ] : List (κ × α) → κ → α → List (κ × α)
  | [], k, v => [(k, v)]
  | (k0, v0) :: rest, k, v =>
    if k = k0 then (k, v) :: rest else (k0, v0) :: alset rest k v

/-- Split a character list on a separator character (Python `str.split(sep)`);
an empty input yields one empty field, `"a..b"` yields an empty middle field. -/
def splitOnChar (sep : Char) : List Char → List (List Char)
  | [] => [[]]
  | c :: cs =>
    let r := splitOnChar sep cs
    if c = sep then [] :: r
    else
      match r with
      | [] => [[c]]
      | h :: t => (c :: h) :: t

/-! ## The module-name pattern (line 39)

`module_name_pattern = re.compile(r"[A-Za-z_][A-Za-z0-9_]*(\.[A-Za-z_][A-Za-z0-9_]*)*$")`

`re.match` anchors the pattern at the start of the string; the final `$`
matches at the end of the string or just before a newline that is the last
character of the string.  The embedding reproduces both behaviours.
-/

def isIdentStart (c : Char) : Bool :=
  ('A' ≤ c && c ≤ 'Z') || ('a' ≤ c && c ≤ 'z') || c = '_'

def isIdentCont (c : Char) : Bool :=
  isIdentStart c || ('0' ≤ c && c ≤ '9')

/-- One identifier: `[A-Za-z_][A-Za-z0-9_]*`. -/
def isIdentifier : List Char → Bool
  | [] => false
  | c :: cs => isIdentStart c && cs.all isIdentCont

/-- The grammar `identifier(.identifier)*` (the pattern body without the
trailing `$` anchor). -/
def is_dotted_identifier_name (l : List Char) : Bool :=
  (splitOnChar '.' l).all isIdentifier

/-- `re.match(module_name_pattern, s)` as a Boolean: the dotted-identifier
grammar must cover the whole string, or the whole string minus a single
trailing newline (Python `$` semantics). -/
def module_name_pattern_match (l : List Char) : Bool :=
  is_dotted_identifier_name l ||
    (l.getLast? = some '\n' && is_dotted_identifier_name l.dropLast)

/-! ## Language level (`Context.set_language_level`, lines 90-104) -/

/-- The set of future directives active in a context.  The Python source
keeps them in a `set`; a finite record of membership flags represents that
set faithfully (record equality is set equality). -/
structure FutureSet where
  print_function : Bool
  unicode_literals : Bool
  absolute_import : Bool
  division : Bool
  generator_stop : Bool
deriving DecidableEq, Repr

def FutureSet.empty : FutureSet :=
  ⟨false, false, false, false, false⟩

/-- The `level` argument: an integer, or the string token `'3str'`. -/
inductive LanguageLevelArg where
  | num (n : Int)
  | str3
deriving DecidableEq, Repr

/-- The slice of `Context` state touched by `set_language_level`:
the module registry (scope identity abstracted to a number), the stored
language level, and the future-directive set. -/
structure LangContext where
  modules : List (String × Nat)
  language_level : Option Int
  future_directives : FutureSet
deriving DecidableEq, Repr

/-- `Context.set_language_level` (lines 90-104).  `'3str'` is coerced to
level 3 while skipping the branch that adds `unicode_literals`; any level
`>= 3` adds the other four directives and registers the built-in module
scope under the alias name `builtins`.  The alias assignment reads
`self.modules['__builtin__']`, which raises a `KeyError` if absent. -/
def set_language_level (ctx : LangContext) (arg : LanguageLevelArg) :
    Except PyErr LangContext :=
  let p : Int × FutureSet :=
    match arg with
    | .str3 => (3, FutureSet.empty)
    | .num n =>
      (n, if 3 ≤ n then { FutureSet.empty with unicode_literals := true }
          else FutureSet.empty)
  let level := p.1
  let fd2 :=
    if 3 ≤ level then
      { p.2 with print_function := true, absolute_import := true,
                 division := true, generator_stop := true }
    else p.2
  let ctx2 := { ctx with language_level := some level, future_directives := fd2 }
  if 3 ≤ level then
    match alookup ctx2.modules "__builtin__" with
    | some b => .ok { ctx2 with modules := alset ctx2.modules "builtins" b }
    | none => .error .keyError
  else .ok ctx2

/-- A minimal context in which `__builtin__` is registered, as `Context.__init__`
guarantees (line 68). -/
def lang_ctx0 : LangContext :=
  { modules := [("__builtin__", 0)], language_level := none,
    future_directives := FutureSet.empty }

/-! ## Filesystem model

All filesystem access in the embedded code is via a static view `FS`:
`pathExists` models `os.path.exists`, `mtime` models `os.path.getmtime`
(`Utils.modification_time`), and `fileLines` gives the lines of a text file
as read by `readlines` (line terminators stripped; `str.strip` in the only
consumer discards them anyway). -/
structure FS where
  pathExists : String → Bool
  mtime : String → Nat
  fileLines : String → List (List Char)

/-- POSIX path join as used through `os.path.join(dir, name)` here (the
second component is never absolute in the embedded call sites). -/
def joinPath (d f : String) : String := d ++ "/" ++ f

/-- `os.path.dirname`: everything before the final slash (simplified POSIX
behaviour; the claims do not depend on its exact value, it only names the
first candidate directory). -/
def dir_name (p : String) : String :=
  String.mk (((p.toList.reverse.dropWhile (fun c => c ≠ '/')).drop 1).reverse)

/-- `Utils.replace_suffix(path, suffix)`: `os.path.splitext(path)[0] + suffix`.
Modelled from the spec: the extension (from the last dot after the last
slash) is replaced by `suffix`; a path with no extension gets `suffix`
appended. -/
def replace_suffix (path suffix : String) : String :=
  let r := path.toList.reverse.dropWhile (fun c => !(c = '.' || c = '/'))
  match r with
  | '.' :: rest => String.mk rest.reverse ++ suffix
  | _ => path ++ suffix

/-! ## Dependency manifest parsing (`Context.read_dependency_file`, lines 298-308) -/

/-- Python whitespace as stripped by `str.strip()`. -/
def is_py_space (c : Char) : Bool :=
  c = ' ' || c = '\t' || c = '\n' || c = '\r' || c = '\x0b' || c = '\x0c'

/-- `str.strip()`: drop leading and trailing whitespace. -/
def py_strip (l : List Char) : List Char :=
  ((l.dropWhile is_py_space).reverse.dropWhile is_py_space).reverse

/-- `" " in s`. -/
def has_space (l : List Char) : Bool := l.contains ' '

/-- `s.split(" ", 1)` for a string that contains a space: the part before
the first space and the (verbatim) remainder after it. -/
def split_first_space : List Char → List Char × List Char
  | [] => ([], [])
  | c :: cs =>
    if c = ' ' then ([], cs)
    else
      let r := split_first_space cs
      (c :: r.1, r.2)

/-- The line-comprehension of `read_dependency_file` (lines 302-304):
`[ line.strip().split(" ", 1) for line in f.readlines() if " " in line.strip() ]`. -/
def parse_dep_lines : List (List Char) → List (List Char × List Char)
  | [] => []
  | line :: rest =>
    let s := py_strip line
    if has_space s then split_first_space s :: parse_dep_lines rest
    else parse_dep_lines rest

/-- `Context.read_dependency_file(source_path)` (lines 298-308): derive the
`.dep` side-car path, return the parsed records if it exists and `()`
(here `[]`) otherwise. -/
def read_dependency_file (fs : FS) (source_path : String) :
    List (List Char × List Char) :=
  let dep_path := replace_suffix source_path ".dep"
  if fs.pathExists dep_path then parse_dep_lines (fs.fileLines dep_path)
  else []

/-- An `FS` that serves the given manifest lines for every path (every path
exists); used to state parsing claims about `read_dependency_file` itself. -/
def manifest_fs (lines : List (List Char)) : FS :=
  { pathExists := fun _ => true, mtime := fun _ => 0, fileLines := fun _ => lines }

/-- The parsing rule exactly as claim C8 words it (no stripping): split
each line on its first space, skip the lines that contain no space.
Stated only for comparison against the source rule. -/
def parse_dep_lines_claimed (lines : List (List Char)) :
    List (List Char × List Char) :=
  lines.filterMap fun line =>
    if has_space line then some (split_first_space line) else none

/-- The per-line rule actually implemented (strip first): used to state the
amended form of C8. -/
def line_record (line : List Char) : Option (List Char × List Char) :=
  let s := py_strip line
  if has_space s then some (split_first_space s) else none

/-! ## The include-directory search engine
(module-level `search_include_directories`, lines 609-667, and the
`Context.search_include_directories` wrapper, lines 252-260) -/

/-- `Scanning.FileSourceDescriptor`, reduced to the only field the search
engine reads (`filename`). -/
structure FileSourceDescriptor where
  filename : String
deriving DecidableEq, Repr

/-- The first element of a source position tuple, as tested by the
`isinstance(pos[0], FileSourceDescriptor)` guard (line 623): either a file
source descriptor or some other object. -/
inductive PosFirst where
  | fileDesc (fd : FileSourceDescriptor)
  | notFileDesc
deriving DecidableEq, Repr

/-- The two `Utils` helpers the search engine calls, passed in as oracle
parameters (the `Utils` module is an external collaborator, not part of the
embedded file).  Each returns its result together with the number of
filesystem probes it performed. -/
structure UtilsModel where
  findRootPackageDir : String → String × Nat
  checkPackageDir : String → List String → Option String × Nat

/-- The bundled standard declarations directory (line 43).  In the source
it is derived from the installed package location; its concrete value is
irrelevant to the claims. -/
def standard_include_path : String := "Cython/Includes"

/-- `qualified_name.split('.')[:-1]` (the package path). -/
def package_names_of (q : String) : List String :=
  ((splitOnChar '.' q.toList).dropLast).map String.mk

/-- `qualified_name.split('.')[-1]` (the leaf module name). -/
def leaf_module_of (q : String) : String :=
  String.mk ((splitOnChar '.' q.toList).getLast?.getD [])

/-- The per-directory body of the search loop (lines 641-666): the dotted
candidate first; when `inc` is false, also the package candidates through
`Utils.check_package_dir`.  Returns the first hit in this directory (or
none) together with the number of filesystem probes performed. -/
def check_directory (fs : FS) (um : UtilsModel) (qualified_name suffix : String)
    (inc : Bool) (d : String) : Option String × Nat :=
  let dotted_filename := qualified_name ++ suffix
  let path1 := joinPath d dotted_filename
  if fs.pathExists path1 then (some path1, 1)
  else if inc then (none, 1)
  else
    let pc := um.checkPackageDir d (package_names_of qualified_name)
    match pc.1 with
    | none => (none, 1 + pc.2)
    | some package_dir =>
      let module_name := leaf_module_of qualified_name
      let path2 := joinPath package_dir (module_name ++ suffix)
      if fs.pathExists path2 then (some path2, 1 + pc.2 + 1)
      else
        let path3 := joinPath (joinPath package_dir module_name)
            ("__init__" ++ suffix)
        if fs.pathExists path3 then (some path3, 1 + pc.2 + 2)
        else (none, 1 + pc.2 + 2)

/-- The `for dirname in dirs` loop (line 641): first hit wins, scanning the
directories in order; probes accumulate. -/
def search_dirs (fs : FS) (um : UtilsModel) (qualified_name suffix : String)
    (inc : Bool) : List String → Option String × Nat
  | [] => (none, 0)
  | d :: rest =>
    match check_directory fs um qualified_name suffix inc d with
    | (some p, n) => (some p, n)
    | (none, n) =>
      let r := search_dirs fs um qualified_name suffix inc rest
      (r.1, n + r.2)

/-- Module-level `search_include_directories(dirs, qualified_name, suffix,
pos, include)` (lines 609-667, without its memoizing decorator — see
`cached_search` below).  When a position is given, its source descriptor
must be a `FileSourceDescriptor` (else `RuntimeError`, line 624); the
position-derived directory is prepended: the file's own directory when
`include` is requested, else its root package directory (lines 625-628). -/
def search_include_directories (fs : FS) (um : UtilsModel) (dirs : List String)
    (qualified_name suffix : String) (pos : Option PosFirst) (inc : Bool) :
    Except PyErr (Option String × Nat) :=
  match pos with
  | some .notFileDesc => .error .runtimeError
  | some (.fileDesc fd) =>
    let first : String × Nat :=
      if inc then (dir_name fd.filename, 0)
      else um.findRootPackageDir fd.filename
    let r := search_dirs fs um qualified_name suffix inc (first.1 :: dirs)
    .ok (r.1, first.2 + r.2)
  | none =>
    let r := search_dirs fs um qualified_name suffix inc dirs
    .ok r

/-- The method `Context.search_include_directories` (lines 252-260; named
without a namespace here to keep the module-level function referable from
its body): appends `sys.path`
to the configured include directories only when `sys_path` is requested,
always appends the standard declarations directory last, then delegates to
the module-level search. -/
def context_search_include_directories (fs : FS) (um : UtilsModel)
    (include_directories sys_path_dirs : List String)
    (qualified_name suffix : String) (pos : Option PosFirst)
    (inc sys_path : Bool) : Except PyErr (Option String × Nat) :=
  let include_dirs :=
    if sys_path then include_directories ++ sys_path_dirs
    else include_directories
  search_include_directories fs um (include_dirs ++ [standard_include_path])
    qualified_name suffix pos inc

/-! ## The memoized search (`@Utils.cached_function`, line 609)

Modelled from the spec: `Utils.cached_function` memoizes the module-level
search for the process lifetime, keyed by the full argument tuple; a raised
exception is not cached (it propagates before the cache is written, and the
error path of the search performs no filesystem probe — the `isinstance`
guard precedes the loop). -/

/-- The argument tuple of the module-level search (the filesystem view and
the `Utils` helpers are fixed for the run). -/
structure SearchKey where
  dirs : List String
  qualified_name : String
  suffix : String
  pos : Option PosFirst
  inc : Bool
deriving DecidableEq

/-- The memoization cache: argument tuple to result. -/
def SearchCache : Type := List (SearchKey × Option String)

/-- One call through the `cached_function` wrapper: on a hit, the stored
result with zero filesystem probes; on a miss, the underlying search, whose
successful result is stored.  Returns (result, probes, new cache). -/
def cached_search (fs : FS) (um : UtilsModel) (c : SearchCache) (k : SearchKey) :
    Except PyErr (Option String) × Nat × SearchCache :=
  match alookup c k with
  | some v => (.ok v, 0, c)
  | none =>
    match search_include_directories fs um k.dirs k.qualified_name k.suffix
        k.pos k.inc with
    | .ok (r, n) => (.ok r, n, alset c k r)
    | .error e => (.error e, 0, c)

/-! ## Staleness checking (`Context.c_file_out_of_date`, lines 268-289) -/

/-- `Utils.file_newer_than(path, time)`.  Modelled from the spec: a
dependency is newer than the output when its modification time is strictly
greater. -/
def file_newer_than (fs : FS) (path : String) (time : Nat) : Bool :=
  time < fs.mtime path

/-- The dependency loop of `c_file_out_of_date` (lines 278-288).  The loop
sets `pos = [source_path]` (line 274), a list whose first element is a
plain string, so:
* a `cimport` entry calls `find_pxd_file`, i.e. the search engine with
  `pos[0]` not a `FileSourceDescriptor` — the `isinstance` guard raises
  `RuntimeError` (the embedded search is wired in with `PosFirst.notFileDesc`;
  the `Options.cimport_from_pyx` fallback of `find_pxd_file` is reached only
  on a `None` result, never on this raise);
* an `include` entry calls the method `search_include_directories(name, pos)`
  with two positional arguments for three required parameters
  (`qualified_name`, `suffix`, `pos`), so Python raises `TypeError` before
  the method body runs (the source comments this call with `# missing
  suffix?`). -/
def deps_loop (fs : FS) (um : UtilsModel) (incDirs sysDirs : List String)
    (c_time : Nat) : List (List Char × List Char) → Except PyErr Bool
  | [] => .ok false
  | (kind, name) :: rest =>
    if kind = "cimport".toList then
      match context_search_include_directories fs um incDirs sysDirs
          (String.mk name) ".pxd" (some .notFileDesc) false true with
      | .error e => .error e
      | .ok (dep_path, _) =>
        match dep_path with
        | some p =>
          if file_newer_than fs p c_time then .ok true
          else deps_loop fs um incDirs sysDirs c_time rest
        | none => deps_loop fs um incDirs sysDirs c_time rest
    else if kind = "include".toList then
      .error .typeError
    else deps_loop fs um incDirs sysDirs c_time rest

/-- `Context.c_file_out_of_date(source_path, output_path)` (lines 268-289):
stale when the output is missing, when the source or its adjacent `.pxd`
declaration file is newer, or when a manifest dependency is newer (but see
`deps_loop`: the manifest branches raise). -/
def c_file_out_of_date (fs : FS) (um : UtilsModel) (incDirs sysDirs : List String)
    (source_path output_path : String) : Except PyErr Bool :=
  if !fs.pathExists output_path then .ok true
  else
    let c_time := fs.mtime output_path
    if file_newer_than fs source_path c_time then .ok true
    else
      let pxd_path := replace_suffix source_path ".pxd"
      if fs.pathExists pxd_path && file_newer_than fs pxd_path c_time then .ok true
      else
        deps_loop fs um incDirs sysDirs c_time (read_dependency_file fs source_path)

/-- A `UtilsModel` with no package directories (concrete instance for
closed statements). -/
def um0 : UtilsModel :=
  { findRootPackageDir := fun _ => ("", 0),
    checkPackageDir := fun _ _ => (none, 0) }

/-- A filesystem where only the output file `a.c` and the manifest `a.dep`
exist; the manifest holds the single record `include foo.h`; every
modification time is `0`, so nothing is newer than the output. -/
def fs_c3 : FS :=
  { pathExists := fun p => p == "a.c" || p == "a.dep",
    mtime := fun _ => 0,
    fileLines := fun p => if p == "a.dep" then ["include foo.h".toList] else [] }

/-! ## Error teardown (`Context.teardown_errors`, lines 396-409) -/

/-- A file on disk: its content and (opaquely) all its other metadata, such
as permission bits. -/
structure FileData where
  content : String
  meta : Nat
deriving DecidableEq, Repr

/-- The on-disk state: path to file, if any. -/
def DiskState : Type := String → Option FileData

/-- `result.compilation_source.source_desc`, reduced to the `isinstance`
test performed on it (line 398). -/
inductive SourceDesc where
  | fileDesc (filename : String)
  | other
deriving DecidableEq, Repr

/-- The slice of `CompilationResult` read or written by `teardown_errors`:
the generated-source path, the error count, and the source descriptor
(reached through `compilation_source`).  The other artifact fields
(`h_file`, `listing_file`, ...) are never touched by it and are omitted. -/
structure CompilationResult where
  c_file : Option String
  num_errors : Nat
  source_desc : SourceDesc
deriving DecidableEq, Repr

/-- Python truthiness of an optional string (`if ... and result.c_file:`):
`None` and the empty string are falsy. -/
def py_truthy : Option String → Bool
  | none => false
  | some s => !(s == "")

/-- Modelled from the spec: `Utils.castrate_file(path, st)` invalidates a
partially-written artifact by truncating its content while preserving its
other file metadata (existence and permission bits remain; per the spec the
stat argument taken from the source file at line 406 only concerns
timestamps, which the opaque `meta` field does not distinguish).  Opening a
non-existent file for this raises an `EnvironmentError`. -/
def castrate_file (disk : DiskState) (path : String) : Except PyErr DiskState :=
  match disk path with
  | none => .error .environmentError
  | some fd =>
    .ok (fun q => if q = path then some { fd with content := "" } else disk q)

/-- `Context.teardown_errors(err, options, result)` (lines 396-409): after
the `isinstance` guard, the final error count is copied into the result; if
any error was counted or externally signaled and the result holds a truthy
generated-source path, the on-disk artifact is invalidated —
`EnvironmentError` from the invalidation is swallowed — and the result's
reference to it is cleared.  (`Errors.close_listing_file()` has no
observable effect on the modelled state.) -/
def teardown_errors (disk : DiskState) (err : Bool) (num_errors : Nat)
    (r : CompilationResult) : Except PyErr (DiskState × CompilationResult) :=
  match r.source_desc with
  | .other => .error .runtimeError
  | .fileDesc _ =>
    let r2 := { r with num_errors := num_errors }
    let err2 := if r2.num_errors > 0 then true else err
    if err2 && py_truthy r2.c_file then
      let disk2 :=
        match r2.c_file with
        | some p =>
          match castrate_file disk p with
          | .ok d => d
          | .error _ => disk
        | none => disk
      .ok (disk2, { r2 with c_file := none })
    else .ok (disk, r2)

/-! ## Module resolution (`Context.find_module`, lines 135-222)

The scope graph and the declaration-file pipeline are external
collaborators (`Symtab.ModuleScope`, `Pipeline`); their observable answers
are passed in as an oracle.  Each filesystem-touching oracle returns its
result together with the number of filesystem probes it performed, so that
"no filesystem access" is a provable statement. -/

/-- The structural error raised on an invalid module name (line 164):
`CompileError(pos or (module_name, 0, 0), "... not a valid module name")`
carries the position and the offending `module_name`. -/
inductive CErr where
  | compileError (pos : Option Nat) (name : String)
deriving DecidableEq, Repr

/-- The part of a `Symtab.ModuleScope` that `find_module` reads when the
scope is passed as `relative_to`: its qualified name and its
`pxd_file_loaded` flag. -/
structure RScope where
  qualifiedName : String
  pxd_file_loaded : Bool
deriving DecidableEq, Repr

/-- `relative_to.qualify_name(module_name)`.  Modelled from the spec
(`Symtab` is external): qualification joins the base qualified name and the
relative name with a dot. -/
def qualify_name (base name : String) : String := base ++ "." ++ name

/-- The qualified name as `find_module` computes it (lines 151-161): a
non-empty name is qualified against `relative_to`; an empty name with a
relative base denotes the base itself; otherwise the name is already
absolute. -/
def computed_qualified_name (module_name : String) (relative_to : Option RScope) :
    String :=
  match relative_to with
  | some rel =>
    if module_name ≠ "" then qualify_name rel.qualifiedName module_name
    else rel.qualifiedName
  | none => module_name

/-- The external answers `find_module` depends on.  `findPxdFile q sp`
models `self.find_pxd_file(q, pos, sys_path=sp)`; `packageSearch q` models
`self.search_include_directories(q, ".py", pos)`; `lookupSubmodule` and
`findSubmoduleFlag` model `relative_to.lookup_submodule` /
`relative_to.find_submodule` (the latter returning the `pxd_file_loaded`
flag of the found-or-created child); `registryFlag` models the
create-or-get walk of lines 180-182 over the context's registry (per the
spec, idempotent, a freshly created scope having the flag unset);
`parseOk` is the outcome of `process_pxd` (lines 215-219).  The
package-file suffix test of line 202 only selects between silence and a
recoverable diagnostic, neither of which is modelled. -/
structure FindOracle where
  lookupSubmodule : String → Option Bool
  findSubmoduleFlag : String → Bool
  findPxdFile : String → Bool → Option String × Nat
  packageSearch : String → Option String × Nat
  registryFlag : String → Option Bool
  parseOk : Bool

/-- The observable outcome of the `if not scope.pxd_file_loaded` block
(lines 186-221) for one call: the flag afterwards, the list of writes made
to it, filesystem probes, and whether a declaration parse was attempted and
succeeded (success registers the result in `self.pxds`, line 219; a
`CompileError` from the parse is swallowed at line 220). -/
structure PxdStepState where
  pxd_file_loaded : Bool
  flag_writes : List Bool
  probes : Nat
  parse_attempted : Bool
  parse_succeeded : Bool
deriving DecidableEq, Repr

/-- Lines 186-221 of `find_module`: if the scope's flag is already set,
nothing happens.  Otherwise, when no declaration path is in hand yet, one
is searched for (`sys.path` breadth only when a declaration is required);
if still absent and required, the flag is set anyway — memoizing the miss —
and a package probe decides between silence and a diagnostic.  If a path is
in hand, the flag is set *before* parsing and stays set even when the parse
fails. -/
def find_module_pxd_step (o : FindOracle) (qualified_name : String) (b0 : Bool)
    (pxd_in : Option String) (need_pxd : Bool) : PxdStepState :=
  if b0 then ⟨true, [], 0, false, false⟩
  else
    match pxd_in with
    | some _ => ⟨true, [true], 0, true, o.parseOk⟩
    | none =>
      let f := o.findPxdFile qualified_name need_pxd
      match f.1 with
      | some _ => ⟨true, [true], f.2, true, o.parseOk⟩
      | none =>
        if need_pxd then
          let pkg := o.packageSearch qualified_name
          ⟨true, [true], f.2 + pkg.2, false, false⟩
        else ⟨false, [], f.2, false, false⟩

/-- The observable outcome of a successful `find_module` call: the
qualified name the returned scope stands for, its `pxd_file_loaded` flag,
the writes made to that flag, and whether a declaration file was parsed and
registered. -/
structure FindModuleOutcome where
  qualified_name : String
  pxd_file_loaded : Bool
  flag_writes : List Bool
  pxd_registered : Bool
deriving DecidableEq, Repr

/-- `Context.find_module(module_name, relative_to, pos, need_pxd,
absolute_fallback)` (lines 135-222), returning the outcome (or the
structural `CompileError`) together with the total number of filesystem
probes.  The name is validated against `module_name_pattern` (line 163)
before anything else; the relative lookup (lines 167-174, note the
`sys_path=True` default of `find_pxd_file` at line 172), the absolute
fallback walk (lines 175-182), and the declaration-loading block
(`find_module_pxd_step`) follow. -/
def find_module (o : FindOracle) (module_name : String)
    (relative_to : Option RScope) (pos : Option Nat) (need_pxd : Bool)
    (absolute_fallback : Bool) : Except CErr FindModuleOutcome × Nat :=
  let qualified_name := computed_qualified_name module_name relative_to
  -- the relative-wildcard case (lines 156-159) also resolves the scope to
  -- `relative_to` itself and clears `relative_to`
  let rel2 : Option RScope :=
    match relative_to with
    | some rel => if module_name ≠ "" then some rel else none
    | none => none
  let scope0 : Option Bool :=
    match relative_to with
    | some rel => if module_name = "" then some rel.pxd_file_loaded else none
    | none => none
  if module_name_pattern_match qualified_name.toList = false then
    (.error (.compileError pos module_name), 0)
  else
    let t : Option Bool × Option String × Nat :=
      match rel2 with
      | some _ =>
        match o.lookupSubmodule module_name with
        | some flag => (some flag, none, 0)
        | none =>
          let f := o.findPxdFile qualified_name true
          match f.1 with
          | some p => (some (o.findSubmoduleFlag module_name), some p, f.2)
          | none => (none, none, f.2)
      | none => (scope0, none, 0)
    let q2b : String × Bool :=
      match t.1 with
      | some b => (qualified_name, b)
      | none =>
        let q2 := if absolute_fallback then module_name else qualified_name
        (q2, (o.registryFlag q2).getD false)
    let st := find_module_pxd_step o q2b.1 q2b.2 t.2.1 need_pxd
    (.ok ⟨q2b.1, st.pxd_file_loaded, st.flag_writes, st.parse_succeeded⟩,
     t.2.2 + st.probes)

/-- A concrete oracle in which nothing is registered and no declaration
file is found; every search costs one probe. -/
def oracle0 : FindOracle :=
  { lookupSubmodule := fun _ => none,
    findSubmoduleFlag := fun _ => false,
    findPxdFile := fun _ _ => (none, 1),
    packageSearch := fun _ => (none, 1),
    registryFlag := fun _ => none,
    parseOk := true }

/-- A concrete oracle in which a declaration file is found but its parse
fails. -/
def oracle_parsefail : FindOracle :=
  { oracle0 with findPxdFile := fun _ _ => (some "m.pxd", 1), parseOk := false }

/-- A concrete three-line manifest whose middle line carries a trailing
space. -/
def c8_manifest : List (List Char) :=
  ["cimport other".toList, "badline ".toList, "include foo.h".toList]

/-- A concrete disk holding one stale generated file. -/
def disk0 : DiskState :=
  fun q => if q = "out.c" then some ⟨"stale generated code", 7⟩ else none

/-- A concrete result referencing that generated file. -/
def result0 : CompilationResult :=
  { c_file := some "out.c", num_errors := 0, source_desc := .fileDesc "a.pyx" }

/-- A disk on which no file exists at all (the invalidation must then raise
and be swallowed). -/
def disk_empty : DiskState := fun _ => none

/-! ## Helper lemmas and sanity checks -/

theorem alookup_alset_self {κ α : Type} [DecidableEq κ]
    (l : List (κ × α)) (k : κ) (v : α) : alookup (alset l k v) k = some v := by
  induction l with
  | nil => simp [alset, alookup]
  | cons hd tl ih =>
    obtain ⟨k0, v0⟩ := hd
    by_cases h : k = k0
    · simp [alset, h, alookup]
    · simp [alset, h, alookup, ih]

/-- The scanned list is exactly an in-order first-match scan: the result of
the directory loop is `List.findSome?` of the per-directory check. -/
theorem search_dirs_eq_findSome (fs : FS) (um : UtilsModel)
    (qualified_name suffix : String) (inc : Bool) (ds : List String) :
    (search_dirs fs um qualified_name suffix inc ds).1
      = ds.findSome? (fun d => (check_directory fs um qualified_name suffix inc d).1) := by
  induction ds with
  | nil => rfl
  | cons d rest ih =>
    rw [List.findSome?]
    cases h : check_directory fs um qualified_name suffix inc d with
    | mk r n =>
      cases r with
      | some p => simp [search_dirs, h]
      | none => simp [search_dirs, h, ih]

example : module_name_pattern_match "pkg.mod".toList = true := by decide
example : module_name_pattern_match "1bad".toList = false := by decide
example : module_name_pattern_match "a-b".toList = false := by decide
example : module_name_pattern_match "pkg.mod\n\n".toList = false := by decide
example : module_name_pattern_match "a..b".toList = false := by decide
example : replace_suffix "a.pyx" ".dep" = "a.dep" := by decide
example : replace_suffix "p/a.pyx" ".pxd" = "p/a.pxd" := by decide

/-! ## Claim theorems -/

/-- C2 fails as stated: `set_language_level('3str')` does *not* activate
the same five future-syntax toggles as `set_language_level(3)` — the
`'3str'` branch (line 93) skips the `int(level)` branch (lines 96-98) that
adds `unicode_literals`, so the two resulting directive sets differ. -/
theorem C2_counterexample :
    (set_language_level lang_ctx0 .str3).toOption.map LangContext.future_directives
      ≠ (set_language_level lang_ctx0 (.num 3)).toOption.map
          LangContext.future_directives := by
  decide

/-- C2 (amended): `set_language_level('3str')` activates exactly four
future-syntax toggles — print-as-call-expression, absolute-import,
true-division, generator-stop — which is the level-3 set minus the
default-unicode string-literal toggle (level 3 additionally activates
`unicode_literals`); in both cases the built-in-names registry is
registered under the alias name `builtins`. -/
theorem C2_amended (ctx : LangContext) (b : Nat)
    (hb : alookup ctx.modules "__builtin__" = some b) :
    ∃ c3s c3, set_language_level ctx .str3 = .ok c3s
      ∧ set_language_level ctx (.num 3) = .ok c3
      ∧ c3s.future_directives
        = { FutureSet.empty with print_function := true, absolute_import := true,
                                 division := true, generator_stop := true }
      ∧ c3.future_directives
        = { c3s.future_directives with unicode_literals := true }
      ∧ c3s.future_directives.unicode_literals = false
      ∧ alookup c3s.modules "builtins" = some b
      ∧ alookup c3.modules "builtins" = some b := by
  refine ⟨{ ctx with language_level := some 3,
                     future_directives := ⟨true, false, true, true, true⟩,
                     modules := alset ctx.modules "builtins" b },
          { ctx with language_level := some 3,
                     future_directives := ⟨true, true, true, true, true⟩,
                     modules := alset ctx.modules "builtins" b },
          ?_, ?_, ?_, ?_, ?_, ?_, ?_⟩
  · simp [set_language_level, hb, FutureSet.empty]
  · simp [set_language_level, hb, FutureSet.empty]
  · rfl
  · rfl
  · rfl
  · exact alookup_alset_self ctx.modules "builtins" b
  · exact alookup_alset_self ctx.modules "builtins" b

/-- C2 witness: the amended claim at a concrete context. -/
theorem C2_amended_witness :
    ∃ c3s c3, set_language_level lang_ctx0 .str3 = .ok c3s
      ∧ set_language_level lang_ctx0 (.num 3) = .ok c3
      ∧ c3s.future_directives
        = { FutureSet.empty with print_function := true, absolute_import := true,
                                 division := true, generator_stop := true }
      ∧ c3.future_directives
        = { c3s.future_directives with unicode_literals := true }
      ∧ c3s.future_directives.unicode_literals = false
      ∧ alookup c3s.modules "builtins" = some 0
      ∧ alookup c3.modules "builtins" = some 0 :=
  C2_amended lang_ctx0 0 (by decide)

/-- C8 fails as stated: on a manifest whose middle line is `badline `
(trailing space), the rule of the claim — split each line on its first
space, skip only the lines containing no space — produces a third record
`("badline", "")`, while `read_dependency_file` strips each line first and
drops it; the parse of the source and the parse described by the claim
disagree. -/
theorem C8_counterexample :
    read_dependency_file (manifest_fs c8_manifest) "a.pyx"
        = [("cimport".toList, "other".toList), ("include".toList, "foo.h".toList)]
      ∧ parse_dep_lines_claimed c8_manifest
        = [("cimport".toList, "other".toList), ("badline".toList, ([] : List Char)),
           ("include".toList, "foo.h".toList)]
      ∧ read_dependency_file (manifest_fs c8_manifest) "a.pyx"
          ≠ parse_dep_lines_claimed c8_manifest := by
  decide

/-- C8 (amended): `read_dependency_file` parses the manifest line by line;
each line is first stripped of surrounding whitespace, every line whose
stripped text contains no space is skipped, and each remaining line is
split on the first space of its stripped text into a (kind, name) record —
so the three-line manifest `cimport other` / `badline` / `include foo.h`
yields exactly the records `("cimport","other")` and
`("include","foo.h")`, with `badline` dropped. -/
theorem C8_amended (lines : List (List Char)) (src : String) :
    read_dependency_file (manifest_fs lines) src = lines.filterMap line_record
      ∧ read_dependency_file (manifest_fs ["cimport other".toList,
          "badline".toList, "include foo.h".toList]) src
        = [("cimport".toList, "other".toList),
           ("include".toList, "foo.h".toList)] := by
  constructor
  · show parse_dep_lines lines = lines.filterMap line_record
    induction lines with
    | nil => rfl
    | cons l rest ih =>
      by_cases h : has_space (py_strip l) = true
      · simp [parse_dep_lines, line_record, List.filterMap_cons, h, ih]
      · simp [parse_dep_lines, line_record, List.filterMap_cons, h, ih]
  · show parse_dep_lines ["cimport other".toList, "badline".toList,
        "include foo.h".toList] = _
    decide

/-- C3: the code contradicts the claim.  On a manifest with an
`include`-kind entry, the staleness check does not resolve the entry via
the include search mechanism: the call at line 284,
`self.search_include_directories(name, pos)`, supplies two positional
arguments to a method with three required parameters (the `suffix` slot
swallows `pos`, and `pos` is missing), so Python raises a `TypeError`
instead of performing the comparison — the source itself flags the call
with `# missing suffix?`.  Concretely: output `a.c` exists, nothing is
newer, and the manifest holds the single record `include foo.h`. -/
theorem C3_include_dependency_type_error :
    c_file_out_of_date fs_c3 um0 [] [] "a.pyx" "a.c" = .error .typeError := by
  rfl

/-- C1: after `teardown_errors` with a positive recorded error count or a
signaled failure, and a result whose main generated-source path is set (to
a non-empty path naming an existing file), the on-disk file at that path
has content of length zero while its other metadata is unchanged (other
files are untouched), and the result's reference to the generated source
is cleared to `None`.  (`Utils.castrate_file` is modelled from the spec:
truncate content, preserve metadata.) -/
theorem C1_artifact_invalidation (disk : DiskState) (err : Bool)
    (num_errors : Nat) (r : CompilationResult) (p fn : String) (fd : FileData)
    (hsd : r.source_desc = .fileDesc fn)
    (herr : err = true ∨ 0 < num_errors)
    (hc : r.c_file = some p) (hp : p ≠ "")
    (hdisk : disk p = some fd) :
    ∃ disk2 r2, teardown_errors disk err num_errors r = .ok (disk2, r2)
      ∧ disk2 p = some ⟨"", fd.meta⟩
      ∧ (∀ q, q ≠ p → disk2 q = disk q)
      ∧ r2.c_file = none
      ∧ r2.num_errors = num_errors := by
  have herr2 : (if num_errors > 0 then true else err) = true := by
    rcases herr with h | h
    · by_cases hn : num_errors > 0 <;> simp [hn, h]
    · simp [h]
  have hred : teardown_errors disk err num_errors r
      = .ok (fun q => if q = p then some ⟨"", fd.meta⟩ else disk q,
             { r with num_errors := num_errors, c_file := none }) := by
    simp [teardown_errors, hsd, herr2, hc, hp, py_truthy, castrate_file, hdisk]
  refine ⟨_, _, hred, ?_, ?_, ?_, ?_⟩
  · simp
  · intro q hq
    simp [hq]
  · rfl
  · rfl

/-- C1 witness: the invalidation at a concrete disk and result. -/
theorem C1_artifact_invalidation_witness :
    ∃ disk2 r2, teardown_errors disk0 false 2 result0 = .ok (disk2, r2)
      ∧ disk2 "out.c" = some ⟨"", 7⟩
      ∧ (∀ q, q ≠ "out.c" → disk2 q = disk0 q)
      ∧ r2.c_file = none
      ∧ r2.num_errors = 2 :=
  C1_artifact_invalidation disk0 false 2 result0 "out.c" "a.pyx"
    ⟨"stale generated code", 7⟩ rfl (Or.inr (by decide)) rfl (by decide)
    (by decide)

/-- C10: whenever an error occurred and the result holds a (truthy) main
generated-source reference, `teardown_errors` clears that reference to
`None` even when the on-disk invalidation raises an environment error —
the `except EnvironmentError: pass` at lines 407-408 swallows it, leaving
the disk untouched while the reference is still cleared. -/
theorem C10_clear_despite_env_error (disk : DiskState) (err : Bool)
    (num_errors : Nat) (r : CompilationResult) (p fn : String)
    (hsd : r.source_desc = .fileDesc fn)
    (herr : err = true ∨ 0 < num_errors)
    (hc : r.c_file = some p) (hp : p ≠ "") :
    ∃ disk2 r2, teardown_errors disk err num_errors r = .ok (disk2, r2)
      ∧ r2.c_file = none
      ∧ (disk p = none → disk2 = disk) := by
  have herr2 : (if num_errors > 0 then true else err) = true := by
    rcases herr with h | h
    · by_cases hn : num_errors > 0 <;> simp [hn, h]
    · simp [h]
  cases hd : disk p with
  | none =>
    refine ⟨disk, { r with num_errors := num_errors, c_file := none }, ?_, rfl,
      fun _ => rfl⟩
    simp [teardown_errors, hsd, herr2, hc, hp, py_truthy, castrate_file, hd]
  | some fd =>
    refine ⟨fun q => if q = p then some ⟨"", fd.meta⟩ else disk q,
      { r with num_errors := num_errors, c_file := none }, ?_, rfl, ?_⟩
    · simp [teardown_errors, hsd, herr2, hc, hp, py_truthy, castrate_file, hd]
    · intro h
      simp at h

/-- C10 witness: concrete failed run on a disk where the artifact is
missing, so the invalidation raises and is swallowed; the reference is
cleared regardless. -/
theorem C10_clear_despite_env_error_witness :
    ∃ disk2 r2, teardown_errors disk_empty true 3 result0 = .ok (disk2, r2)
      ∧ r2.c_file = none
      ∧ (disk_empty "out.c" = none → disk2 = disk_empty) :=
  C10_clear_despite_env_error disk_empty true 3 result0 "out.c" "a.pyx" rfl
    (Or.inl rfl) rfl (by decide)

/-- C4 fails as stated: the check at line 163 is against the anchored
regex, whose `$` also matches before a single trailing newline, so the
name `"pkg.mod\n"` — which is not of the form `identifier(.identifier)*` —
raises no structural error and resolution proceeds. -/
theorem C4_counterexample :
    is_dotted_identifier_name "pkg.mod\n".toList = false
      ∧ (find_module oracle0 "pkg.mod\n" none none true true).1.toOption.isSome
        = true := by
  decide

/-- C4 (amended): whenever the computed qualified name fails the compiled
pattern `module_name_pattern` (the grammar `identifier(.identifier)*`, with
the `$` anchor additionally tolerating one trailing newline), `find_module`
raises a structural `CompileError` carrying the offending `module_name` and
the position, with zero directories searched and zero filesystem probes. -/
theorem C4_amended (o : FindOracle) (module_name : String)
    (relative_to : Option RScope) (pos : Option Nat)
    (need_pxd absolute_fallback : Bool)
    (h : module_name_pattern_match
        (computed_qualified_name module_name relative_to).toList = false) :
    find_module o module_name relative_to pos need_pxd absolute_fallback
      = (.error (.compileError pos module_name), 0) := by
  have h2 : module_name_pattern_match
      (computed_qualified_name module_name relative_to).data = false := h
  simp [find_module, h2]

/-- C4 witness: the claim's two example names, rejected with zero probes. -/
theorem C4_amended_witness :
    find_module oracle0 "1bad" none none true true
        = (.error (.compileError none "1bad"), 0)
      ∧ find_module oracle0 "a-b" none none true true
        = (.error (.compileError none "a-b"), 0) :=
  ⟨C4_amended oracle0 "1bad" none none true true (by decide),
   C4_amended oracle0 "a-b" none none true true (by decide)⟩

/-- C5 fails as stated: the `pxd_file_loaded` transition also fires when a
declaration file is found but its parse *fails* — the flag is set at line
207 before parsing and the `CompileError` is swallowed at line 220 — which
is neither a successful declaration-file parse nor a memoized confirmed
absence. -/
theorem C5_counterexample :
    (find_module_pxd_step oracle_parsefail "m" false none true).flag_writes
        = [true]
      ∧ (find_module_pxd_step oracle_parsefail "m" false none true).parse_attempted
        = true
      ∧ (find_module_pxd_step oracle_parsefail "m" false none true).parse_succeeded
        = false
      ∧ (oracle_parsefail.findPxdFile "m" true).1.isSome = true := by
  decide

/-- C5 (amended): within the declaration-loading block, the
`pxd_file_loaded` flag of a scope transitions only from false to true (a
loaded scope is never written at all, and every write is `true`), with at
most one write per call; the transition fires exactly when the flag was
unset and either a declaration file is available — the parse is then
attempted, the flag staying set even if the parse fails — or a declaration
file was required but not found (the memoized confirmed absence). -/
theorem C5_amended (o : FindOracle) (q : String) (b0 : Bool)
    (pxd_in : Option String) (need_pxd : Bool) :
    (find_module_pxd_step o q true pxd_in need_pxd).flag_writes = []
      ∧ (find_module_pxd_step o q b0 pxd_in need_pxd).flag_writes.length ≤ 1
      ∧ (find_module_pxd_step o q b0 pxd_in need_pxd).flag_writes.all id = true
      ∧ b0 ≤ (find_module_pxd_step o q b0 pxd_in need_pxd).pxd_file_loaded
      ∧ (find_module_pxd_step o q b0 pxd_in need_pxd).pxd_file_loaded
        = (b0 || pxd_in.isSome || (o.findPxdFile q need_pxd).1.isSome || need_pxd)
      ∧ (find_module_pxd_step o q b0 pxd_in need_pxd).flag_writes.length
        = (if b0 then 0
           else if pxd_in.isSome || (o.findPxdFile q need_pxd).1.isSome || need_pxd
           then 1 else 0) := by
  unfold find_module_pxd_step
  cases b0 <;> cases pxd_in <;> cases h : (o.findPxdFile q need_pxd).1 <;>
    cases need_pxd <;> simp [h]

/-- C9: the qualified-name validation accepts a well-formed dotted name
followed by a single trailing newline: `"pkg.mod\n"` is not of the form
`identifier(.identifier)*`, yet it matches the `$`-anchored pattern, so
`find_module` raises no structural error and resolution proceeds to the
filesystem (a positive probe count). -/
theorem C9_trailing_newline :
    module_name_pattern_match "pkg.mod\n".toList = true
      ∧ is_dotted_identifier_name "pkg.mod\n".toList = false
      ∧ (find_module oracle0 "pkg.mod\n" none none true true).1.toOption.isSome
        = true
      ∧ 0 < (find_module oracle0 "pkg.mod\n" none none true true).2 := by
  decide

/-- C6: with a known referencing position, the search scans exactly the
fixed ordered directory list — first the position-derived directory (the
source file's own directory when `include` is requested, else its root
package directory), then the configured include directories in order, then
the `sys.path` set only when explicitly requested, and the bundled standard
declarations directory always last — and returns the first directory hit
(`List.findSome?` of the per-directory check), so an earlier directory's
candidate always wins and the standard directory only serves when no other
directory has one. -/
theorem C6_search_order (fs : FS) (um : UtilsModel)
    (include_directories sys_path_dirs : List String)
    (qualified_name suffix fn : String) (inc sys_path : Bool) :
    (context_search_include_directories fs um include_directories sys_path_dirs
        qualified_name suffix (some (.fileDesc ⟨fn⟩)) inc sys_path).map Prod.fst
      = .ok (List.findSome?
          (fun d => (check_directory fs um qualified_name suffix inc d).1)
          ((if inc then dir_name fn else (um.findRootPackageDir fn).1)
            :: (include_directories ++ (if sys_path then sys_path_dirs else [])
                ++ [standard_include_path]))) := by
  unfold context_search_include_directories search_include_directories
  cases inc <;> cases sys_path <;>
    simp [Except.map, search_dirs_eq_findSome]

/-- C7: the module-level search is memoized on its full argument tuple
(filesystem view fixed for the run): calling again with the same key
returns the identical result, performs zero filesystem probes, and leaves
the cache unchanged.  (`Utils.cached_function` is modelled from the spec;
the only error path of the search precedes any probe.) -/
theorem C7_memoized_search (fs : FS) (um : UtilsModel) (c : SearchCache)
    (k : SearchKey) :
    (cached_search fs um (cached_search fs um c k).2.2 k).1
        = (cached_search fs um c k).1
      ∧ (cached_search fs um (cached_search fs um c k).2.2 k).2.1 = 0
      ∧ (cached_search fs um (cached_search fs um c k).2.2 k).2.2
        = (cached_search fs um c k).2.2 := by
  unfold cached_search
  cases h : alookup c k with
  | some v => simp [h]
  | none =>
    cases hs : search_include_directories fs um k.dirs k.qualified_name
        k.suffix k.pos k.inc with
    | ok rn =>
      obtain ⟨r, n⟩ := rn
      simp [h, hs, alookup_alset_self]
    | error e => simp [h, hs]
